import Mathlib

/-!
Verification of the LoadImageMetadata repository: a shallow embedding of
the two plugin components (`LoadImageWithMetadata` in
`load_image_with_metadata.py` and `FinalMetadataReporter` in
`final_metadata_reporter.py`) together with theorems settling the claims
about them.

Python values flowing through the code (PNG auxiliary metadata, JSON
sidecar contents, workflow graphs) are modelled by the inductive `Val`.
Python dictionaries are association lists preserving insertion order.
Operations that can raise in Python (attribute access on a value of the
wrong type, `in` on a non-iterable, subscripting) are modelled in an
`Except String` monad; `try`/`except` blocks of the source correspond to
explicit `match` on the `Except` result.  External collaborators (PIL
image decoding, the filesystem walk, `folder_paths`, `json` module,
`hashlib`) are black boxes per the spec and enter as components of an
environment record.
-/

namespace LoadImageMetadata

/-- JSON-like Python value: the data model for metadata dictionaries,
workflow graphs and node inputs. -/
inductive Val where
  | str : String → Val
  | int : Int → Val
  | bool : Bool → Val
  | none : Val
  | list : List Val → Val
  | dict : List (String × Val) → Val
deriving Repr

mutual

/-- Boolean equality on `Val` (hand-rolled: `Val` is a nested inductive). -/
def valBeq : Val → Val → Bool
  | Val.str a, Val.str b => a = b
  | Val.int a, Val.int b => a = b
  | Val.bool a, Val.bool b => a = b
  | Val.none, Val.none => true
  | Val.list a, Val.list b => valBeqL a b
  | Val.dict a, Val.dict b => valBeqD a b
  | _, _ => false

/-- Boolean equality on lists of `Val`. -/
def valBeqL : List Val → List Val → Bool
  | [], [] => true
  | a :: as, b :: bs => valBeq a b && valBeqL as bs
  | _, _ => false

/-- Boolean equality on association lists over `Val`. -/
def valBeqD : List (String × Val) → List (String × Val) → Bool
  | [], [] => true
  | (k, v) :: as, (k2, v2) :: bs => (k = k2 : Bool) && valBeq v v2 && valBeqD as bs
  | _, _ => false

end

mutual

/-- `valBeq` decides equality. -/
def valBeq_iff : (a b : Val) → (valBeq a b = true ↔ a = b)
  | Val.str a, Val.str b => by simp [valBeq]
  | Val.int a, Val.int b => by simp [valBeq]
  | Val.bool a, Val.bool b => by simp [valBeq]
  | Val.none, Val.none => by simp [valBeq]
  | Val.list a, Val.list b => by
      simp only [valBeq, valBeqL_iff a b]
      constructor
      · intro h; rw [h]
      · intro h; cases h; rfl
  | Val.dict a, Val.dict b => by
      simp only [valBeq, valBeqD_iff a b]
      constructor
      · intro h; rw [h]
      · intro h; cases h; rfl
  | Val.str _, Val.int _ => by simp [valBeq]
  | Val.str _, Val.bool _ => by simp [valBeq]
  | Val.str _, Val.none => by simp [valBeq]
  | Val.str _, Val.list _ => by simp [valBeq]
  | Val.str _, Val.dict _ => by simp [valBeq]
  | Val.int _, Val.str _ => by simp [valBeq]
  | Val.int _, Val.bool _ => by simp [valBeq]
  | Val.int _, Val.none => by simp [valBeq]
  | Val.int _, Val.list _ => by simp [valBeq]
  | Val.int _, Val.dict _ => by simp [valBeq]
  | Val.bool _, Val.str _ => by simp [valBeq]
  | Val.bool _, Val.int _ => by simp [valBeq]
  | Val.bool _, Val.none => by simp [valBeq]
  | Val.bool _, Val.list _ => by simp [valBeq]
  | Val.bool _, Val.dict _ => by simp [valBeq]
  | Val.none, Val.str _ => by simp [valBeq]
  | Val.none, Val.int _ => by simp [valBeq]
  | Val.none, Val.bool _ => by simp [valBeq]
  | Val.none, Val.list _ => by simp [valBeq]
  | Val.none, Val.dict _ => by simp [valBeq]
  | Val.list _, Val.str _ => by simp [valBeq]
  | Val.list _, Val.int _ => by simp [valBeq]
  | Val.list _, Val.bool _ => by simp [valBeq]
  | Val.list _, Val.none => by simp [valBeq]
  | Val.list _, Val.dict _ => by simp [valBeq]
  | Val.dict _, Val.str _ => by simp [valBeq]
  | Val.dict _, Val.int _ => by simp [valBeq]
  | Val.dict _, Val.bool _ => by simp [valBeq]
  | Val.dict _, Val.none => by simp [valBeq]
  | Val.dict _, Val.list _ => by simp [valBeq]

/-- `valBeqL` decides equality of `Val` lists. -/
def valBeqL_iff : (a b : List Val) → (valBeqL a b = true ↔ a = b)
  | [], [] => by simp [valBeqL]
  | [], _ :: _ => by simp [valBeqL]
  | _ :: _, [] => by simp [valBeqL]
  | a :: as, b :: bs => by
      simp only [valBeqL, Bool.and_eq_true, valBeq_iff a b, valBeqL_iff as bs,
        List.cons.injEq]

/-- `valBeqD` decides equality of association lists. -/
def valBeqD_iff : (a b : List (String × Val)) → (valBeqD a b = true ↔ a = b)
  | [], [] => by simp [valBeqD]
  | [], _ :: _ => by simp [valBeqD]
  | _ :: _, [] => by simp [valBeqD]
  | (k, v) :: as, (k2, v2) :: bs => by
      simp only [valBeqD, Bool.and_eq_true, decide_eq_true_eq, valBeq_iff v v2,
        valBeqD_iff as bs, List.cons.injEq, Prod.mk.injEq]

end

instance : DecidableEq Val :=
  fun a b => decidable_of_iff _ (valBeq_iff a b)

/-- Python truthiness (`bool(v)`) for the modelled value types. -/
def pyTruthy : Val → Bool
  | Val.str s => ¬ s.data = []
  | Val.int n => ¬ n = 0
  | Val.bool b => b
  | Val.none => false
  | Val.list l => ¬ l = []
  | Val.dict d => ¬ d = []

/-- Whether a value is a Python `dict` (`isinstance(v, dict)`). -/
def Val.isDict : Val → Bool
  | Val.dict _ => true
  | _ => false

/-- Lookup in an ordered association list, mirroring Python `dict` lookup
(keys are unique in an actual Python dict; first match wins here). -/
def dictGet (d : List (String × Val)) (k : String) : Option Val :=
  match d with
  | [] => Option.none
  | (k2, v) :: rest => if k2 = k then some v else dictGet rest k

/-- Assignment `d[k] = v` on an ordered association list: replaces in
place if the key exists, appends otherwise — exactly Python dict update
order semantics. -/
def dictSet (d : List (String × Val)) (k : String) (v : Val) : List (String × Val) :=
  match d with
  | [] => [(k, v)]
  | (k2, v2) :: rest => if k2 = k then (k, v) :: rest else (k2, v2) :: dictSet rest k v

/-- `nodes_dict.get(key)` where the key itself is a `Val` (used for the
indirect seed reference): only string keys can hit a JSON-object dict. -/
def dictGetV (d : List (String × Val)) (k : Val) : Option Val :=
  match k with
  | Val.str s => dictGet d s
  | _ => Option.none

/-- `sep.join(parts)` of Python. -/
def pyJoin (sep : String) : List String → String
  | [] => ""
  | [x] => x
  | x :: xs => x ++ sep ++ pyJoin sep xs

mutual

/-- Python `repr` of a modelled value (string escapes not modelled; the
inputs exercised contain no quotes or control characters). -/
def pyRepr : Val → String
  | Val.str s => "\x27" ++ s ++ "\x27"
  | Val.int n => toString n
  | Val.bool b => if b then "True" else "False"
  | Val.none => "None"
  | Val.list l => "[" ++ pyJoin ", " (pyReprL l) ++ "]"
  | Val.dict d => "\x7b" ++ pyJoin ", " (pyReprD d) ++ "\x7d"

/-- `repr` of the elements of a list. -/
def pyReprL : List Val → List String
  | [] => []
  | v :: vs => pyRepr v :: pyReprL vs

/-- `repr` of the entries of a dict. -/
def pyReprD : List (String × Val) → List String
  | [] => []
  | (k, v) :: kvs => ("\x27" ++ k ++ "\x27: " ++ pyRepr v) :: pyReprD kvs

end

/-- Python `str` of a modelled value (as interpolated by f-strings). -/
def pyStr : Val → String
  | Val.str s => s
  | v => pyRepr v

/-- List-level `isPrefixOf` on characters (kernel-reducible). -/
def chPrefix : List Char → List Char → Bool
  | [], _ => true
  | _ :: _, [] => false
  | a :: as, b :: bs => a = b && chPrefix as bs

/-- `needle.startswith` style check: `strIsPrefix pre s` is Python
`s.startswith(pre)`. -/
def strIsPrefix (pre s : String) : Bool :=
  chPrefix pre.data s.data

/-- `s.endswith(suf)` of Python. -/
def strEndsWith (s suf : String) : Bool :=
  let l := s.data
  let t := suf.data
  decide (t.length ≤ l.length) && (l.drop (l.length - t.length) = t : Bool)

/-- Substring containment (`needle in hay` for Python strings). -/
def strContainsAux : List Char → List Char → Bool
  | hay, needle =>
    if chPrefix needle hay then true
    else
      match hay with
      | [] => false
      | _ :: t => strContainsAux t needle

/-- `needle in hay` for strings. -/
def strContains (hay needle : String) : Bool :=
  strContainsAux hay.data needle.data

/-- ASCII `str.title()` of Python: an alphabetic character is uppercased
after a non-alphabetic character and lowercased otherwise. -/
def pyTitle (s : String) : String :=
  String.mk ((s.data.foldl
    (fun (acc : List Char × Bool) c =>
      if c.isAlpha then (acc.1 ++ [if acc.2 then c.toLower else c.toUpper], true)
      else (acc.1 ++ [c], false))
    ([], false)).1)

/-- `key.replace('_', ' ').title()` used to render report field names. -/
def displayKey (k : String) : String :=
  pyTitle (String.mk (k.data.map (fun c => if c = '_' then ' ' else c)))

/-! ## Filesystem and path helpers for the loader (`os.path`) -/

/-- Index of the last occurrence of a character in a character list. -/
def lastIdx (cs : List Char) (c : Char) : Option Nat :=
  (cs.foldl
    (fun (acc : Nat × Option Nat) ch =>
      (acc.1 + 1, if ch = c then some acc.1 else acc.2))
    (0, Option.none)).2

/-- Root part of `os.path.splitext(p)`: everything before the extension.
The extension starts at the last dot of the final path component,
provided some earlier character of that component is not a dot. -/
def splitextRoot (p : String) : String :=
  let cs := p.data
  let sep := (((lastIdx cs '/').map (· + 1)).getD 0)
  match lastIdx cs '.' with
  | some d => if ((cs.take d).drop sep).any (fun c => ¬ c = '.') then String.mk (cs.take d) else p
  | Option.none => p

/-- `os.path.basename(p)`: the final path component. -/
def basename (p : String) : String :=
  String.mk (p.data.drop (((lastIdx p.data '/').map (· + 1)).getD 0))

/-- The filter applied during the output-directory walk:
`file.lower().endswith('.png')`. -/
def pngName (file : String) : Bool :=
  strEndsWith (String.mk (file.data.map Char.toLower)) ".png"

/-! ## Loader data model -/

/-- One file yielded by `os.walk` over the output directory: its bare
name (the walk filter applies to this), the joined full path, and its
modification timestamp (`os.path.getmtime`). -/
structure WalkEntry where
  name : String
  path : String
  mtime : Int
deriving DecidableEq, Repr

/-- A decoded PIL image as the loader's logic observes it: container
format, the `img.info` auxiliary key/value metadata, and the sizes of
the frames after `exif_transpose` and `convert("RGB")`. -/
structure PILImage where
  format : String
  info : List (String × Val)
  frames : List (Nat × Nat)

/-- The image component of the loader's output: either a batch of
decoded frames (recorded by their sizes) or the
`torch.zeros((1, 3, 64, 64))` placeholder recorded by its shape. -/
inductive ImageOut where
  | frames : List (Nat × Nat) → ImageOut
  | zeros : List Nat → ImageOut
deriving DecidableEq, Repr

/-- External collaborators, black boxes per the spec: the output
directory walk, `folder_paths.get_annotated_filepath`, PIL `Image.open`
(with decode failures as `Except.error`), `os.path.exists` and
`json.load` for the sidecar file, `json.loads` for embedded metadata
strings, binary file reads (`None` models `FileNotFoundError`) and the
SHA-256 digest of `hashlib`. -/
structure Env where
  walkOutput : List WalkEntry
  annotated : String → String
  openImage : String → Except String PILImage
  pathExists : String → Bool
  loadJson : String → Except String Val
  jsonLoads : String → Except String Val
  readFile : String → Option (List Nat)
  sha256 : List Nat → List Nat

/-! ## Loader operations (`load_image_with_metadata.py`) -/

/-- `_create_error_output`: placeholder `torch.zeros((1, 3, 64, 64))`
plus an error mapping. -/
def create_error_output (error_message : String) : ImageOut × Val :=
  (ImageOut.zeros [1, 3, 64, 64], Val.dict [("error", Val.str error_message)])

/-- One iteration of the `_parse_png_metadata` loop: for `prompt` and
`workflow`, JSON-decode string values (keeping the raw string on parse
failure); copy `parameters` verbatim; ignore everything else. -/
def parse_png_step (jl : String → Except String Val) (acc : List (String × Val))
    (kv : String × Val) : List (String × Val) :=
  if kv.1 = "prompt" ∨ kv.1 = "workflow" then
    match kv.2 with
    | Val.str s =>
      (match jl s with
       | Except.ok pv => dictSet acc kv.1 pv
       | Except.error _ => dictSet acc kv.1 kv.2)
    | _ => dictSet acc kv.1 kv.2
  else if kv.1 = "parameters" then dictSet acc "parameters" kv.2
  else acc

/-- The accumulation loop of `_parse_png_metadata` over the raw
auxiliary pairs. -/
def parse_png_pairs (jl : String → Except String Val) (raw : List (String × Val)) :
    List (String × Val) :=
  raw.foldl (parse_png_step jl) []

/-- `_parse_png_metadata`: the collected pairs, or the sentinel mapping
when nothing was recognized. -/
def parse_png_metadata (jl : String → Except String Val) (raw : List (String × Val)) : Val :=
  if parse_png_pairs jl raw = [] then
    Val.dict [("info", Val.str "No workflow metadata found")]
  else Val.dict (parse_png_pairs jl raw)

/-- The frame-retention loop of `_process_image_file`: the first frame
fixes the canonical size `(w, h)`; later frames of a different size are
skipped via `continue`. -/
def retainFrames : List (Nat × Nat) → List (Nat × Nat)
  | [] => []
  | f :: rest => f :: rest.filter (fun s => s = f)

/-- The sidecar-fallback block of `_process_image_file`: when the parsed
metadata is falsy or equals the sentinel, and a same-named `.json` file
exists, its parsed contents fully replace the metadata; a sidecar parse
failure is swallowed, keeping the metadata unchanged. -/
def sidecar_fallback (env : Env) (image_path : String) (metadata : Val) : Val :=
  if ¬ pyTruthy metadata
      ∨ (match metadata with
         | Val.dict md => dictGet md "info"
         | _ => Option.none) = some (Val.str "No workflow metadata found") then
    if env.pathExists (splitextRoot image_path ++ ".json") then
      match env.loadJson (splitextRoot image_path ++ ".json") with
      | Except.ok v => v
      | Except.error _ => metadata
    else metadata
  else metadata

/-- The injection block of `_process_image_file`: add `image_path` and
`image_filename` provided the metadata is a mapping; other shapes pass
through untouched. -/
def inject_paths (image_path : String) (metadata : Val) : Val :=
  match metadata with
  | Val.dict md =>
    Val.dict (dictSet (dictSet md "image_path" (Val.str image_path))
      "image_filename" (Val.str (basename image_path)))
  | other => other

/-- `_process_image_file`: decode the image, extract metadata, retain
uniformly-sized frames, fall back to a same-named sidecar `.json` when
only the sentinel was found, and inject `image_path`/`image_filename`
when the metadata is a mapping.  The surrounding `try` converts an
`Image.open` failure into the error output. -/
def process_image_file (env : Env) (image_path : String) : ImageOut × Val :=
  match env.openImage image_path with
  | Except.error e => create_error_output ("Error processing image: " ++ e)
  | Except.ok img =>
    let metadata := parse_png_metadata env.jsonLoads img.info
    match retainFrames img.frames with
    | [] => create_error_output "Failed to load image frames"
    | f :: rest =>
      let output_image :=
        if 0 < rest.length ∧ ¬ img.format = "MPO" then ImageOut.frames (f :: rest)
        else ImageOut.frames [f]
      (output_image, inject_paths image_path (sidecar_fallback env image_path metadata))

/-- `load_image_with_metadata`: resolve the source selector.  In
`direct_input` mode, walk the output tree, keep `.png` files
(case-insensitive), sort by modification time newest first and process
the head; with no match, degrade to the error output.  Otherwise treat
the selector as `file` mode and process the annotated path, degrading
when no file name was supplied. -/
def load_image_with_metadata (env : Env) (source_type : String)
    (image_file : Option String) : ImageOut × Val :=
  if source_type = "direct_input" then
    let png_files := (env.walkOutput.filter (fun en => pngName en.name)).map
      (fun en => (en.path, en.mtime))
    match png_files with
    | [] => create_error_output "No PNG files found in output directory"
    | p :: ps =>
      let sorted := (p :: ps).mergeSort (fun a b => decide (b.2 ≤ a.2))
      process_image_file env (sorted.headD p).1
  else
    match image_file with
    | Option.none => create_error_output "No image file specified"
    | some f => process_image_file env (env.annotated f)

/-- The change-detection signal returned by `IS_CHANGED`: the
`float("nan")` sentinel or a hex digest string. -/
inductive ChangedSig where
  | nan : ChangedSig
  | digest : String → ChangedSig
deriving DecidableEq, Repr

/-- One lowercase hexadecimal digit. -/
def hexDigit (n : Nat) : Char :=
  if n < 10 then Char.ofNat (48 + n) else Char.ofNat (87 + n)

/-- `bytes.hex()`: two lowercase hex digits per byte. -/
def hexOfBytes (bs : List Nat) : String :=
  String.mk (bs.foldr (fun b acc => hexDigit (b / 16 % 16) :: hexDigit (b % 16) :: acc) [])

/-- `IS_CHANGED`: `nan` in `direct_input` mode; in `file` mode with a
named file, the hex SHA-256 of the file bytes, falling back to `nan`
when the file cannot be opened; `nan` for anything else. -/
def IS_CHANGED (env : Env) (source_type : String) (image_file : Option String) : ChangedSig :=
  if source_type = "direct_input" then ChangedSig.nan
  else
    match (source_type = "file" : Bool), image_file with
    | true, some f =>
      (match env.readFile (env.annotated f) with
       | some bytes => ChangedSig.digest (hexOfBytes (env.sha256 bytes))
       | Option.none => ChangedSig.nan)
    | _, _ => ChangedSig.nan

/-! ## Reporter (`final_metadata_reporter.py`)

Operations that can raise in Python are wrapped in `Except String`; the
carried string is the exception text. -/

/-- Python type name, as it appears in exception messages. -/
def typeName : Val → String
  | Val.str _ => "str"
  | Val.int _ => "int"
  | Val.bool _ => "bool"
  | Val.none => "NoneType"
  | Val.list _ => "list"
  | Val.dict _ => "dict"

/-- `v.items()`: succeeds on dicts, raises `AttributeError` otherwise. -/
def pyItems : Val → Except String (List (String × Val))
  | Val.dict d => Except.ok d
  | v => Except.error (typeName v ++ " object has no attribute items")

/-- `v.get(k)` with the default of `None`. -/
def pyGetN (v : Val) (k : String) : Except String Val :=
  match v with
  | Val.dict d => Except.ok ((dictGet d k).getD Val.none)
  | _ => Except.error (typeName v ++ " object has no attribute get")

/-- `v.get(k, dflt)`. -/
def pyGetD (v : Val) (k : String) (dflt : Val) : Except String Val :=
  match v with
  | Val.dict d => Except.ok ((dictGet d k).getD dflt)
  | _ => Except.error (typeName v ++ " object has no attribute get")

/-- `k in v` for a string key: key test on dicts, membership on lists,
substring test on strings, `TypeError` otherwise. -/
def pyIn (k : String) (v : Val) : Except String Bool :=
  match v with
  | Val.dict d => Except.ok (dictGet d k).isSome
  | Val.list l => Except.ok (l.contains (Val.str k))
  | Val.str s => Except.ok (strContains s k)
  | _ => Except.error ("argument of type " ++ typeName v ++ " is not iterable")

/-- `v[k]` for a string key: dict lookup (raising `KeyError` when
absent), `TypeError` on lists and strings. -/
def pySubStr (v : Val) (k : String) : Except String Val :=
  match v with
  | Val.dict d =>
    (match dictGet d k with
     | some x => Except.ok x
     | Option.none => Except.error ("KeyError: " ++ k))
  | Val.list _ => Except.error "list indices must be integers or slices, not str"
  | Val.str _ => Except.error "string indices must be integers"
  | v2 => Except.error (typeName v2 ++ " object is not subscriptable")

/-- `_get_nodes_dict` fallthrough to the direct `nodes` key: accepted
when it is a dict or a list. -/
def gnd_nodes (md : List (String × Val)) : Option Val :=
  match dictGet md "nodes" with
  | some (Val.dict d) => some (Val.dict d)
  | some (Val.list l) => some (Val.list l)
  | _ => Option.none

/-- `_get_nodes_dict` `workflow` step: a dict yields its `nodes` sub-key
or the whole dict; a string is JSON-decoded and, when a dict, treated
the same way; anything else (including decode failures and non-dict
decodes) falls through to the `nodes` step. -/
def gnd_workflow (jl : String → Except String Val) (md : List (String × Val)) : Option Val :=
  match dictGet md "workflow" with
  | some (Val.dict w) => some ((dictGet w "nodes").getD (Val.dict w))
  | some (Val.str s) =>
    (match jl s with
     | Except.ok (Val.dict w) => some ((dictGet w "nodes").getD (Val.dict w))
     | _ => gnd_nodes md)
  | _ => gnd_nodes md

/-- `_get_nodes_dict`: try `prompt` (dict kept as-is, string JSON-decoded
and returned whatever it decodes to), then `workflow`, then `nodes`;
`None` when nothing matched. -/
def get_nodes_dict (jl : String → Except String Val) (md : List (String × Val)) : Option Val :=
  match dictGet md "prompt" with
  | some (Val.dict p) => some (Val.dict p)
  | some (Val.str s) =>
    (match jl s with
     | Except.ok v => some v
     | Except.error _ => gnd_workflow jl md)
  | _ => gnd_workflow jl md

/-- The node-scan pattern `isinstance(node, dict) and
node.get('class_type') == ct` returning the first matching node's dict,
used by the loops that unconditionally stop at the first match. -/
def findNodeOfClass (ct : String) : List (String × Val) → Option (List (String × Val))
  | [] => Option.none
  | (_, Val.dict d) :: rest =>
    if (dictGet d "class_type").getD Val.none = Val.str ct then some d
    else findNodeOfClass ct rest
  | _ :: rest => findNodeOfClass ct rest

/-- The loop body of `_extract_model_name`: first `CheckpointLoaderSimple`
node that has an `inputs` entry containing `ckpt_name`; nodes of the
right class missing those fields are passed over. -/
def extract_model_name_go : List (String × Val) → Except String Val
  | [] => Except.ok (Val.str "N/A")
  | (_, node) :: rest =>
    match node with
    | Val.dict d =>
      if (dictGet d "class_type").getD Val.none = Val.str "CheckpointLoaderSimple" then
        match dictGet d "inputs" with
        | some inputs =>
          (match pyIn "ckpt_name" inputs with
           | Except.error e => Except.error e
           | Except.ok b =>
             if b then pySubStr inputs "ckpt_name"
             else extract_model_name_go rest)
        | Option.none => extract_model_name_go rest
      else extract_model_name_go rest
    | _ => extract_model_name_go rest

/-- `_extract_model_name`. -/
def extract_model_name (nodes_dict : Val) : Except String Val :=
  match pyItems nodes_dict with
  | Except.error e => Except.error e
  | Except.ok items => extract_model_name_go items

/-- One collected LoRA record: the `lora` and `strength` fields of an
enabled `lora_*` input. -/
def lora_entry (vd : List (String × Val)) : List (String × Val) :=
  [("name", (dictGet vd "lora").getD (Val.str "N/A")),
   ("strength", (dictGet vd "strength").getD (Val.str "N/A"))]

/-- The per-input test of `_extract_loras`: key starts with `lora_`, the
value is a dict, and its `on` field is truthy (default `False`). -/
def lora_hit : String × Val → Option (List (String × Val))
  | (k, Val.dict vd) =>
    if strIsPrefix "lora_" k ∧ pyTruthy ((dictGet vd "on").getD (Val.bool false)) then
      some (lora_entry vd)
    else Option.none
  | _ => Option.none

/-- `_extract_loras`: only the first `Power Lora Loader (rgthree)` node
is consulted (the loop breaks after it); its qualifying inputs yield the
entries in input order. -/
def extract_loras (nodes_dict : Val) : Except String (List (List (String × Val))) :=
  match pyItems nodes_dict with
  | Except.error e => Except.error e
  | Except.ok items =>
    match findNodeOfClass "Power Lora Loader (rgthree)" items with
    | Option.none => Except.ok []
    | some d =>
      match pyItems ((dictGet d "inputs").getD (Val.dict [])) with
      | Except.error e => Except.error e
      | Except.ok inItems => Except.ok (inItems.filterMap lora_hit)

/-- First loop of `_extract_resolution`: `CascadeResolutions` nodes with
a `size_selected` input. -/
def extract_resolution_go1 : List (String × Val) → Except String (Option Val)
  | [] => Except.ok Option.none
  | (_, node) :: rest =>
    match node with
    | Val.dict d =>
      if (dictGet d "class_type").getD Val.none = Val.str "CascadeResolutions" then
        match dictGet d "inputs" with
        | some inputs =>
          (match pyIn "size_selected" inputs with
           | Except.error e => Except.error e
           | Except.ok b =>
             if b then
               match pySubStr inputs "size_selected" with
               | Except.error e => Except.error e
               | Except.ok v => Except.ok (some v)
             else extract_resolution_go1 rest)
        | Option.none => extract_resolution_go1 rest
      else extract_resolution_go1 rest
    | _ => extract_resolution_go1 rest

/-- Second loop of `_extract_resolution`: `ImageScale` nodes with truthy
`width` and `height`, rendered as `WxH`. -/
def extract_resolution_go2 : List (String × Val) → Except String (Option Val)
  | [] => Except.ok Option.none
  | (_, node) :: rest =>
    match node with
    | Val.dict d =>
      if (dictGet d "class_type").getD Val.none = Val.str "ImageScale" then
        match pyGetN ((dictGet d "inputs").getD (Val.dict [])) "width" with
        | Except.error e => Except.error e
        | Except.ok w =>
          match pyGetN ((dictGet d "inputs").getD (Val.dict [])) "height" with
          | Except.error e => Except.error e
          | Except.ok h =>
            if pyTruthy w ∧ pyTruthy h then
              Except.ok (some (Val.str (pyStr w ++ "x" ++ pyStr h)))
            else extract_resolution_go2 rest
      else extract_resolution_go2 rest
    | _ => extract_resolution_go2 rest

/-- `_extract_resolution`. -/
def extract_resolution (nodes_dict : Val) : Except String (Option Val) :=
  match pyItems nodes_dict with
  | Except.error e => Except.error e
  | Except.ok items =>
    match extract_resolution_go1 items with
    | Except.error e => Except.error e
    | Except.ok (some v) => Except.ok (some v)
    | Except.ok Option.none => extract_resolution_go2 items

/-- The loop of `_extract_prompts` over `CLIPTextEncodeFlux` nodes:
skip nodes whose `clip_l` equals the empty string; the first remaining
node carrying a `clip_l` key supplies the positive prompt and, when
present, the `t5xxl` secondary prompt. -/
def extract_prompts_go : List (String × Val) → Except String (Val × Option Val)
  | [] => Except.ok (Val.str "N/A", Option.none)
  | (_, node) :: rest =>
    match node with
    | Val.dict d =>
      if (dictGet d "class_type").getD Val.none = Val.str "CLIPTextEncodeFlux" then
        match pyGetN ((dictGet d "inputs").getD (Val.dict [])) "clip_l" with
        | Except.error e => Except.error e
        | Except.ok cl =>
          if cl = Val.str "" then extract_prompts_go rest
          else
            match pyIn "clip_l" ((dictGet d "inputs").getD (Val.dict [])) with
            | Except.error e => Except.error e
            | Except.ok b =>
              if b then
                match pySubStr ((dictGet d "inputs").getD (Val.dict [])) "clip_l" with
                | Except.error e => Except.error e
                | Except.ok pos =>
                  match pyIn "t5xxl" ((dictGet d "inputs").getD (Val.dict [])) with
                  | Except.error e => Except.error e
                  | Except.ok b2 =>
                    if b2 then
                      match pySubStr ((dictGet d "inputs").getD (Val.dict [])) "t5xxl" with
                      | Except.error e => Except.error e
                      | Except.ok t5 => Except.ok (pos, some t5)
                    else Except.ok (pos, Option.none)
              else extract_prompts_go rest
      else extract_prompts_go rest
    | _ => extract_prompts_go rest

/-- `_extract_prompts`. -/
def extract_prompts (nodes_dict : Val) : Except String (Val × Option Val) :=
  match pyItems nodes_dict with
  | Except.error e => Except.error e
  | Except.ok items => extract_prompts_go items

/-- Resolution of the `seed` input in the `KSampler` branch: one hop is
followed when the input is an indirect node reference, accepting only a
truthy referenced node of class `Seed Everywhere`; a non-list `seed`
input is used directly. -/
def ksampler_seed (nds : List (String × Val)) (inputs seed_link : Val) :
    Except String Val :=
  match seed_link with
  | Val.list (sid :: _) =>
    (match dictGetV nds sid with
     | some seed_node =>
       if pyTruthy seed_node then
         match pyGetN seed_node "class_type" with
         | Except.error e => Except.error e
         | Except.ok ct =>
           if ct = Val.str "Seed Everywhere" then
             match pyGetD seed_node "inputs" (Val.dict []) with
             | Except.error e => Except.error e
             | Except.ok si => pyGetD si "seed" (Val.str "N/A")
           else Except.ok (Val.str "N/A")
       else Except.ok (Val.str "N/A")
     | Option.none => Except.ok (Val.str "N/A"))
  | _ => pyGetD inputs "seed" (Val.str "N/A")

/-- The `KSampler` branch of `_extract_sampler_info`. -/
def ksampler_info (nds : List (String × Val)) (inputs : Val) :
    Except String (List (String × Val)) :=
  match pyGetN inputs "seed" with
  | Except.error e => Except.error e
  | Except.ok seed_link =>
    match ksampler_seed nds inputs seed_link with
    | Except.error e => Except.error e
    | Except.ok seed_value =>
      match pyGetD inputs "steps" (Val.str "N/A") with
      | Except.error e => Except.error e
      | Except.ok steps =>
        match pyGetD inputs "cfg" (Val.str "N/A") with
        | Except.error e => Except.error e
        | Except.ok cfg =>
          match pyGetD inputs "sampler_name" (Val.str "N/A") with
          | Except.error e => Except.error e
          | Except.ok sampler_name =>
            match pyGetD inputs "scheduler" (Val.str "N/A") with
            | Except.error e => Except.error e
            | Except.ok scheduler =>
              match pyGetD inputs "denoise" (Val.str "N/A") with
              | Except.error e => Except.error e
              | Except.ok denoise =>
                Except.ok [("seed", seed_value), ("steps", steps), ("cfg", cfg),
                  ("sampler_name", sampler_name), ("scheduler", scheduler),
                  ("denoise", denoise)]

/-- The `XlabsSampler` branch of `_extract_sampler_info`. -/
def xlabs_info (inputs : Val) : Except String (List (String × Val)) :=
  match pyGetD inputs "noise_seed" (Val.str "N/A") with
  | Except.error e => Except.error e
  | Except.ok seed =>
    match pyGetD inputs "steps" (Val.str "N/A") with
    | Except.error e => Except.error e
    | Except.ok steps =>
      match pyGetD inputs "true_gs" (Val.str "N/A") with
      | Except.error e => Except.error e
      | Except.ok true_gs =>
        match pyGetD inputs "timestep_to_start_cfg" (Val.str "N/A") with
        | Except.error e => Except.error e
        | Except.ok ts =>
          match pyGetD inputs "image_to_image_strength" (Val.str "N/A") with
          | Except.error e => Except.error e
          | Except.ok i2i =>
            match pyGetD inputs "denoise_strength" (Val.str "N/A") with
            | Except.error e => Except.error e
            | Except.ok denoise =>
              Except.ok [("seed", seed), ("steps", steps), ("true_gs", true_gs),
                ("timestep_to_start_cfg", ts), ("image_to_image_strength", i2i),
                ("denoise", denoise)]

/-- `_extract_sampler_info`: `KSampler` first, then `XlabsSampler`,
else `None`. -/
def extract_sampler_info (nodes_dict : Val) :
    Except String (Option (List (String × Val))) :=
  match pyItems nodes_dict with
  | Except.error e => Except.error e
  | Except.ok items =>
    match findNodeOfClass "KSampler" items with
    | some d =>
      (match ksampler_info items ((dictGet d "inputs").getD (Val.dict [])) with
       | Except.error e => Except.error e
       | Except.ok info => Except.ok (some info))
    | Option.none =>
      match findNodeOfClass "XlabsSampler" items with
      | some d =>
        (match xlabs_info ((dictGet d "inputs").getD (Val.dict [])) with
         | Except.error e => Except.error e
         | Except.ok info => Except.ok (some info))
      | Option.none => Except.ok Option.none

/-- One step of the ControlNet accumulator of
`_extract_additional_components`. -/
def controlnet_step (acc : List (String × Val)) (node : Val) :
    Except String (List (String × Val)) :=
  match node with
  | Val.dict d =>
    let ct := (dictGet d "class_type").getD Val.none
    if ct = Val.str "LoadFluxControlNet" then
      match pyGetD ((dictGet d "inputs").getD (Val.dict [])) "model_name" (Val.str "N/A") with
      | Except.error e => Except.error e
      | Except.ok mn =>
        match pyGetD ((dictGet d "inputs").getD (Val.dict [])) "controlnet_path"
            (Val.str "N/A") with
        | Except.error e => Except.error e
        | Except.ok cp =>
          Except.ok (dictSet (dictSet acc "model_name" mn) "controlnet_path" cp)
    else if ct = Val.str "ApplyFluxControlNet" then
      match pyGetD ((dictGet d "inputs").getD (Val.dict [])) "strength" (Val.str "N/A") with
      | Except.error e => Except.error e
      | Except.ok st => Except.ok (dictSet acc "strength" st)
    else if ct = Val.str "CannyEdgePreprocessor" then
      match pyGetD ((dictGet d "inputs").getD (Val.dict [])) "low_threshold" (Val.str "N/A") with
      | Except.error e => Except.error e
      | Except.ok lo =>
        match pyGetD ((dictGet d "inputs").getD (Val.dict [])) "high_threshold"
            (Val.str "N/A") with
        | Except.error e => Except.error e
        | Except.ok hi =>
          match pyGetD ((dictGet d "inputs").getD (Val.dict [])) "resolution"
              (Val.str "N/A") with
          | Except.error e => Except.error e
          | Except.ok res =>
            Except.ok (dictSet (dictSet (dictSet acc "low_threshold" lo)
              "high_threshold" hi) "resolution" res)
    else Except.ok acc
  | _ => Except.ok acc

/-- One step of the IPAdapter accumulator (the `ipadatper` key typo is
the source's). -/
def ipadapter_step (acc : List (String × Val)) (node : Val) :
    Except String (List (String × Val)) :=
  match node with
  | Val.dict d =>
    let ct := (dictGet d "class_type").getD Val.none
    if ct = Val.str "LoadFluxIPAdapter" then
      match pyGetD ((dictGet d "inputs").getD (Val.dict [])) "ipadatper" (Val.str "N/A") with
      | Except.error e => Except.error e
      | Except.ok ad =>
        match pyGetD ((dictGet d "inputs").getD (Val.dict [])) "clip_vision" (Val.str "N/A") with
        | Except.error e => Except.error e
        | Except.ok cv =>
          match pyGetD ((dictGet d "inputs").getD (Val.dict [])) "provider" (Val.str "N/A") with
          | Except.error e => Except.error e
          | Except.ok pr =>
            Except.ok (dictSet (dictSet (dictSet acc "adapter" ad) "clip_vision" cv)
              "provider" pr)
    else if ct = Val.str "ApplyFluxIPAdapter" then
      match pyGetD ((dictGet d "inputs").getD (Val.dict [])) "ip_scale" (Val.str "N/A") with
      | Except.error e => Except.error e
      | Except.ok sc => Except.ok (dictSet acc "ip_scale" sc)
    else Except.ok acc
  | _ => Except.ok acc

/-- Accumulator loop over all nodes for one component family. -/
def component_fold
    (step : List (String × Val) → Val → Except String (List (String × Val))) :
    List (String × Val) → List (String × Val) → Except String (List (String × Val))
  | acc, [] => Except.ok acc
  | acc, kv :: rest =>
    match step acc kv.2 with
    | Except.error e => Except.error e
    | Except.ok acc2 => component_fold step acc2 rest

/-- `_extract_additional_components`: two independent accumulator passes
over all nodes; each family is emitted only when non-empty. -/
def extract_additional_components (nodes_dict : Val) :
    Except String (List (String × List (String × Val))) :=
  match pyItems nodes_dict with
  | Except.error e => Except.error e
  | Except.ok items =>
    match component_fold controlnet_step [] items with
    | Except.error e => Except.error e
    | Except.ok cn =>
      match component_fold ipadapter_step [] items with
      | Except.error e => Except.error e
      | Except.ok ip =>
        Except.ok ((if cn = [] then [] else [("ControlNet Details", cn)]) ++
          (if ip = [] then [] else [("IPAdapter Details", ip)]))

/-- The LoRA report line: the single `strength` value is printed in both
the `Model` and `CLIP` positions (entries built by `_extract_loras`
always carry both keys). -/
def fmt_lora_line (lora : List (String × Val)) : String :=
  "  - " ++ pyStr ((dictGet lora "name").getD Val.none) ++ " (Model: " ++
    pyStr ((dictGet lora "strength").getD Val.none) ++ ", CLIP: " ++
    pyStr ((dictGet lora "strength").getD Val.none) ++ ")"

/-- A `Display Key: value` line of the sampler and component sections. -/
def fmt_kv_line (kv : String × Val) : String :=
  displayKey kv.1 ++ ": " ++ pyStr kv.2

/-- The `try` body of `_parse_and_format`, threading the accumulated
`output_lines`.  A raise at any point yields `Except.error` carrying the
lines appended so far together with the exception text. -/
def parse_and_format_body (nodes_dict : Val) :
    Except (List String × String) (List String) :=
  let ls0 := ["--- Workflow Metadata Report ---"]
  match extract_model_name nodes_dict with
  | Except.error e => Except.error (ls0, e)
  | Except.ok model_name =>
    let ls1 := ls0 ++ ["Model: " ++ pyStr model_name]
    match extract_loras nodes_dict with
    | Except.error e => Except.error (ls1, e)
    | Except.ok loras =>
      let ls2 := ls1 ++ (if loras = [] then [] else "LoRAs:" :: loras.map fmt_lora_line)
      match extract_resolution nodes_dict with
      | Except.error e => Except.error (ls2, e)
      | Except.ok res =>
        let ls3 := ls2 ++
          (match res with
           | some r => if pyTruthy r then ["Resolution: " ++ pyStr r] else []
           | Option.none => [])
        match extract_prompts nodes_dict with
        | Except.error e => Except.error (ls3, e)
        | Except.ok (pos, t5) =>
          let ls4 := ls3 ++ ["\nPositive Prompt:\n  " ++ pyStr pos]
          let ls5 := ls4 ++
            (match t5 with
             | some t => if pyTruthy t then ["\nT5XXL Prompt:\n  " ++ pyStr t] else []
             | Option.none => [])
          let ls6 := ls5 ++ ["\nNegative Prompt:\n  (Empty)"]
          match extract_sampler_info nodes_dict with
          | Except.error e => Except.error (ls6, e)
          | Except.ok sinfo =>
            let ls7 := ls6 ++
              (match sinfo with
               | some info =>
                 if info = [] then []
                 else "\n--- Sampler Details ---" :: info.map fmt_kv_line
               | Option.none => [])
            match extract_additional_components nodes_dict with
            | Except.error e => Except.error (ls7, e)
            | Except.ok comps =>
              Except.ok (ls7 ++ (comps.foldl
                (fun acc c =>
                  if c.2 = [] then acc
                  else acc ++ (("\n--- " ++ c.1 ++ " ---") :: c.2.map fmt_kv_line))
                []))

/-- `_parse_and_format`: join the produced lines; the `except` branch
appends the trailing error line to the lines already produced. -/
def parse_and_format (nodes_dict : Val) : String :=
  match parse_and_format_body nodes_dict with
  | Except.ok ls => pyJoin "\n" ls
  | Except.error (ls, e) =>
    pyJoin "\n" (ls ++ ["\nError during metadata parsing: " ++ e])

/-- `_format_direct_image_metadata`: flat key/value rendering of a
non-workflow metadata mapping.  `jd` models `json.dumps(value, indent=2)`
for dict-valued entries. -/
def format_direct_image_metadata (jd : Val → String) (md : List (String × Val)) : String :=
  pyJoin "\n" ("--- Image Metadata ---" :: md.map
    (fun kv =>
      match kv.2 with
      | Val.dict _ => displayKey kv.1 ++ ":\n" ++ jd kv.2
      | Val.list l =>
        displayKey kv.1 ++ ": " ++
          (if 5 < l.length then
            String.mk ((pyRepr (Val.list (l.take 5))).data.dropLast) ++ ", ... ]"
          else pyRepr (Val.list l))
      | v => displayKey kv.1 ++ ": " ++ pyStr v))

/-- The fixed message returned for empty or non-mapping metadata. -/
def fallback_message : String :=
  "Metadata report: No valid metadata was provided.\n\nIf this is unexpected, check that:\n1. The image has embedded metadata\n2. The LoadImageWithMetadata node is connected correctly\n3. The workflow has completed at least one execution"

/-- The branch taken when no usable node structure was found: non-empty
mappings are rendered flat; the residual branch (unreachable, since the
mapping is non-empty past the degenerate-input check) lists up to ten
key names. -/
def no_structure_report (jd : Val → String) (md : List (String × Val)) : String :=
  if 0 < md.length then format_direct_image_metadata jd md
  else
    "Could not find workflow node structure in metadata.\n\nAvailable metadata keys: " ++
      pyJoin ", " ((md.map Prod.fst).take 10)

/-- `report_metadata`: degenerate input gives the fixed message; then the
graph is located and formatted, falsy lookups falling back to the flat
rendering. -/
def report_metadata (jl : String → Except String Val) (jd : Val → String)
    (metadata : Val) : String :=
  if ¬ pyTruthy metadata ∨ ¬ Val.isDict metadata then fallback_message
  else
    match metadata with
    | Val.dict md =>
      (match get_nodes_dict jl md with
       | some nd =>
         if pyTruthy nd then parse_and_format nd
         else no_structure_report jd md
       | Option.none => no_structure_report jd md)
    | _ => fallback_message

/-! ## Helper lemmas -/

/-- `_parse_png_metadata` always returns a mapping. -/
theorem parse_png_metadata_isDict (jl : String → Except String Val)
    (raw : List (String × Val)) : ∃ md, parse_png_metadata jl raw = Val.dict md := by
  unfold parse_png_metadata
  split
  · exact ⟨_, rfl⟩
  · exact ⟨_, rfl⟩

/-- The sidecar fallback either keeps the metadata or replaces it by a
successfully parsed sidecar value at the derived sidecar path. -/
theorem sidecar_fallback_cases (env : Env) (image_path : String) (m : Val) :
    sidecar_fallback env image_path m = m ∨
      (env.pathExists (splitextRoot image_path ++ ".json") = true ∧
        env.loadJson (splitextRoot image_path ++ ".json") =
          Except.ok (sidecar_fallback env image_path m)) := by
  unfold sidecar_fallback
  split
  · split
    · rename_i hex
      split
      · rename_i v hload
        exact Or.inr ⟨hex, by rw [hload]⟩
      · exact Or.inl rfl
    · exact Or.inl rfl
  · exact Or.inl rfl

/-- Injection keeps mappings mappings. -/
theorem inject_paths_dict (image_path : String) (m : Val) (h : Val.isDict m = true) :
    ∃ md, inject_paths image_path m = Val.dict md := by
  cases m <;> simp_all [Val.isDict, inject_paths]

/-- Injection is the identity on non-mappings. -/
theorem inject_paths_nondict (image_path : String) (m : Val) (h : Val.isDict m = false) :
    inject_paths image_path m = m := by
  cases m <;> simp_all [Val.isDict, inject_paths]

/-- The metadata returned by `_process_image_file` is a mapping, except
when it is a successfully parsed non-mapping sidecar value. -/
theorem process_metadata_shape (env : Env) (image_path : String) :
    Val.isDict (process_image_file env image_path).2 = true ∨
      ∃ p, env.pathExists p = true ∧
        env.loadJson p = Except.ok (process_image_file env image_path).2 ∧
        Val.isDict (process_image_file env image_path).2 = false := by
  cases h : env.openImage image_path with
  | error e => simp only [process_image_file, h]; exact Or.inl rfl
  | ok img =>
    cases hf : retainFrames img.frames with
    | nil => simp only [process_image_file, h, hf]; exact Or.inl rfl
    | cons f rest =>
      simp only [process_image_file, h, hf]
      by_cases hd : Val.isDict (sidecar_fallback env image_path
        (parse_png_metadata env.jsonLoads img.info)) = true
      · obtain ⟨md, he⟩ := inject_paths_dict image_path _ hd
        rw [he]
        exact Or.inl rfl
      · rw [Bool.not_eq_true] at hd
        rw [inject_paths_nondict image_path _ hd]
        rcases sidecar_fallback_cases env image_path
          (parse_png_metadata env.jsonLoads img.info) with heq | ⟨hex, hload⟩
        · obtain ⟨md, hp⟩ := parse_png_metadata_isDict env.jsonLoads img.info
          rw [heq, hp] at hd
          simp [Val.isDict] at hd
        · exact Or.inr ⟨_, hex, hload, hd⟩

/-- `_process_image_file` returns either the zero placeholder with an
error mapping or a batch of decoded frames. -/
theorem process_output_shape (env : Env) (image_path : String) :
    (∃ msg, process_image_file env image_path =
        (ImageOut.zeros [1, 3, 64, 64], Val.dict [("error", Val.str msg)])) ∨
      ∃ sizes md, process_image_file env image_path = (ImageOut.frames sizes, md) := by
  cases h : env.openImage image_path with
  | error e => simp only [process_image_file, h]; exact Or.inl ⟨_, rfl⟩
  | ok img =>
    cases hf : retainFrames img.frames with
    | nil => simp only [process_image_file, h, hf]; exact Or.inl ⟨_, rfl⟩
    | cons f rest =>
      simp only [process_image_file, h, hf]
      split
      · exact Or.inr ⟨_, _, rfl⟩
      · exact Or.inr ⟨_, _, rfl⟩

/-! ## Claim C1 -/

/-- Environment witnessing the sidecar hole of claim C1: the image opens
with one frame and no auxiliary metadata, and the same-named sidecar
`.json` parses to a JSON array (a Python list, not a mapping). -/
def envSidecarList : Env where
  walkOutput := []
  annotated := fun s => s
  openImage := fun _ => Except.ok ⟨"PNG", [], [(8, 8)]⟩
  pathExists := fun _ => true
  loadJson := fun _ => Except.ok (Val.list [])
  jsonLoads := fun _ => Except.error "invalid"
  readFile := fun _ => Option.none
  sha256 := fun l => l

/-- C1 counterexample: with a sidecar file whose JSON contents are the
array `[]`, the loader returns metadata that is not a mapping, so the
claim that the metadata component is always a mapping — including when
fully replaced by a sidecar — is false on the code. -/
theorem c1_counterexample :
    (load_image_with_metadata envSidecarList "file" (some "img.png")).2 = Val.list [] ∧
      Val.isDict (load_image_with_metadata envSidecarList "file" (some "img.png")).2
        = false := by
  constructor
  · rfl
  · rfl

/-- C1 (amended): for every call of the loader that returns normally,
the metadata component is a mapping, except in the single case where the
metadata was fully replaced by the contents of a same-named sidecar
`.json` file that parsed to a non-mapping JSON value, which is returned
as parsed. -/
theorem c1_metadata_mapping_unless_nondict_sidecar (env : Env) (source_type : String)
    (image_file : Option String) :
    Val.isDict (load_image_with_metadata env source_type image_file).2 = true ∨
      ∃ p, env.pathExists p = true ∧
        env.loadJson p =
          Except.ok (load_image_with_metadata env source_type image_file).2 ∧
        Val.isDict (load_image_with_metadata env source_type image_file).2 = false := by
  unfold load_image_with_metadata
  split
  · dsimp only
    split
    · exact Or.inl rfl
    · exact process_metadata_shape env _
  · split
    · exact Or.inl rfl
    · exact process_metadata_shape env _

/-! ## Claim C2 -/

/-- C2: for every source selector and filesystem state the loader is a
total function (the model never escapes with an exception), and every
result is either the `torch.zeros((1, 3, 64, 64))` all-black placeholder
paired with a mapping holding an `error` message, or a batch of decoded
frames: every failure path degrades to the placeholder-plus-error pair. -/
theorem c2_load_never_raises (env : Env) (source_type : String)
    (image_file : Option String) :
    (∃ msg, load_image_with_metadata env source_type image_file =
        (ImageOut.zeros [1, 3, 64, 64], Val.dict [("error", Val.str msg)])) ∨
      ∃ sizes md, load_image_with_metadata env source_type image_file =
        (ImageOut.frames sizes, md) := by
  unfold load_image_with_metadata
  split
  · dsimp only
    split
    · exact Or.inl ⟨_, rfl⟩
    · exact process_output_shape env _
  · split
    · exact Or.inl ⟨_, rfl⟩
    · exact process_output_shape env _

/-! ## Claim C4 -/

/-- Head of the descending stable sort used for `png_files`: with a
strict maximum present, the head is that maximum, whatever the order of
the input list. -/
theorem mergeSort_headD_max (l : List (String × Int)) (p0 mx : String × Int)
    (hmem : mx ∈ l) (hmax : ∀ q ∈ l, q = mx ∨ q.2 < mx.2) :
    (l.mergeSort (fun a b => decide (b.2 ≤ a.2))).headD p0 = mx := by
  have hperm := List.mergeSort_perm l (fun a b => decide (b.2 ≤ a.2))
  have hsorted := @List.sorted_mergeSort (String × Int) (fun a b => decide (b.2 ≤ a.2))
    (by
      intro a b c hab hbc
      simp only [decide_eq_true_eq] at *
      exact le_trans hbc hab)
    (by
      intro a b
      simp only [Bool.or_eq_true, decide_eq_true_eq]
      exact le_total b.2 a.2)
    l
  cases hs : l.mergeSort (fun a b => decide (b.2 ≤ a.2)) with
  | nil =>
    rw [hs] at hperm
    rw [hperm.symm.eq_nil] at hmem
    cases hmem
  | cons h t =>
    rw [hs] at hperm hsorted
    have hh : h ∈ l := hperm.mem_iff.mp (List.mem_cons_self h t)
    rcases hmax h hh with he | hlt
    · simpa [List.headD] using he
    · have hmx2 : mx ∈ h :: t := hperm.mem_iff.mpr hmem
      rcases List.mem_cons.mp hmx2 with he2 | ht
      · rw [← he2] at hlt
        exact absurd hlt (lt_irrefl _)
      · have hle := List.rel_of_pairwise_cons hsorted ht
        simp only [decide_eq_true_eq] at hle
        exact absurd (lt_of_le_of_lt hle hlt) (lt_irrefl _)

/-- C4: in `direct_input` (most recent) mode, when some walked file has a
`.png` name (case-insensitive) and strictly the greatest modification
timestamp among such files, the loader processes exactly that file —
the hypothesis places no constraint on the enumeration order of
`walkOutput`, so the selection is independent of walk order; and when no
walked file has a `.png` name, the loader returns the error metadata
without consulting the image decoder. -/
theorem c4_most_recent_selection :
    (∀ (env : Env) (image_file : Option String) (e : WalkEntry),
      e ∈ env.walkOutput → pngName e.name = true →
      (∀ e2 ∈ env.walkOutput, pngName e2.name = true → e2 = e ∨ e2.mtime < e.mtime) →
      load_image_with_metadata env "direct_input" image_file =
        process_image_file env e.path) ∧
    (∀ (env : Env) (image_file : Option String),
      (∀ e ∈ env.walkOutput, pngName e.name = false) →
      load_image_with_metadata env "direct_input" image_file =
        (ImageOut.zeros [1, 3, 64, 64],
          Val.dict [("error", Val.str "No PNG files found in output directory")])) := by
  constructor
  · intro env image_file e hmem hpng hmax
    have hmem2 : (e.path, e.mtime) ∈
        (env.walkOutput.filter (fun en => pngName en.name)).map
          (fun en => (en.path, en.mtime)) :=
      List.mem_map.mpr ⟨e, List.mem_filter.mpr ⟨hmem, hpng⟩, rfl⟩
    have hmax2 : ∀ q ∈ (env.walkOutput.filter (fun en => pngName en.name)).map
        (fun en => (en.path, en.mtime)), q = (e.path, e.mtime) ∨ q.2 < e.mtime := by
      intro q hq
      obtain ⟨e2, he2, rfl⟩ := List.mem_map.mp hq
      obtain ⟨hw, hp⟩ := List.mem_filter.mp he2
      rcases hmax e2 hw hp with he | hlt
      · exact Or.inl (by rw [he])
      · exact Or.inr hlt
    simp only [load_image_with_metadata, if_pos]
    cases hpf : (env.walkOutput.filter (fun en => pngName en.name)).map
        (fun en => (en.path, en.mtime)) with
    | nil =>
      rw [hpf] at hmem2
      cases hmem2
    | cons p ps =>
      rw [hpf] at hmem2 hmax2
      dsimp only
      rw [mergeSort_headD_max (p :: ps) p (e.path, e.mtime) hmem2 hmax2]
  · intro env image_file h
    have hnil : env.walkOutput.filter (fun en => pngName en.name) = [] :=
      List.filter_eq_nil_iff.mpr (by
        intro a ha
        simp [h a ha])
    simp only [load_image_with_metadata, if_pos, hnil, List.map_nil]
    rfl

/-- Concrete environment exercising most-recent selection: two `.png`
files with distinct timestamps and one non-`.png` file with a later
timestamp. -/
def envWalk : Env where
  walkOutput := [⟨"a.png", "out/a.png", 5⟩, ⟨"b.PNG", "out/sub/b.PNG", 9⟩,
    ⟨"c.txt", "out/c.txt", 99⟩]
  annotated := fun s => s
  openImage := fun _ => Except.ok ⟨"PNG", [], [(8, 8)]⟩
  pathExists := fun _ => false
  loadJson := fun _ => Except.error "missing"
  jsonLoads := fun _ => Except.error "invalid"
  readFile := fun _ => Option.none
  sha256 := fun l => l

/-- C4 witness: in the concrete environment the strict-maximum
hypotheses hold for the `b.PNG` entry and the loader processes exactly
that file. -/
theorem c4_witness :
    pngName "b.PNG" = true ∧
      load_image_with_metadata envWalk "direct_input" Option.none =
        process_image_file envWalk "out/sub/b.PNG" :=
  ⟨by decide,
    c4_most_recent_selection.1 envWalk Option.none ⟨"b.PNG", "out/sub/b.PNG", 9⟩
      (by decide) (by decide) (by decide)⟩

/-! ## Claim C5 -/

/-- The metadata loop ignores pairs carrying none of the recognized
keys. -/
theorem parse_png_step_skip (jl : String → Except String Val)
    (acc : List (String × Val)) (kv : String × Val)
    (h : ¬ (kv.1 = "prompt" ∨ kv.1 = "workflow" ∨ kv.1 = "parameters")) :
    parse_png_step jl acc kv = acc := by
  push_neg at h
  unfold parse_png_step
  rw [if_neg (by tauto), if_neg (by tauto)]

/-- With no recognized keys in the raw metadata, the collected pairs are
empty. -/
theorem parse_png_pairs_nil (jl : String → Except String Val)
    (raw : List (String × Val))
    (h : ∀ kv ∈ raw, ¬ (kv.1 = "prompt" ∨ kv.1 = "workflow" ∨ kv.1 = "parameters")) :
    parse_png_pairs jl raw = [] := by
  have haux : ∀ (l : List (String × Val)) (acc : List (String × Val)),
      (∀ kv ∈ l, ¬ (kv.1 = "prompt" ∨ kv.1 = "workflow" ∨ kv.1 = "parameters")) →
      l.foldl (parse_png_step jl) acc = acc := by
    intro l
    induction l with
    | nil => intro acc _; rfl
    | cons kv t ih =>
      intro acc hall
      rw [List.foldl_cons, parse_png_step_skip jl acc kv (hall kv (List.mem_cons_self kv t))]
      exact ih acc (fun kv2 h2 => hall kv2 (List.mem_cons_of_mem kv h2))
  exact haux raw [] h

/-- C5: for an image whose auxiliary pairs contain none of `prompt`,
`workflow` or `parameters`, and with no same-named sidecar `.json` file,
the loader's returned metadata is exactly the three-key mapping
`info` / `image_path` / `image_filename`, in insertion order. -/
theorem c5_sentinel_metadata (env : Env) (image_path : String) (img : PILImage)
    (f : Nat × Nat) (rest : List (Nat × Nat))
    (hopen : env.openImage image_path = Except.ok img)
    (hframes : img.frames = f :: rest)
    (hkeys : ∀ kv ∈ img.info, ¬ (kv.1 = "prompt" ∨ kv.1 = "workflow" ∨ kv.1 = "parameters"))
    (hsc : env.pathExists (splitextRoot image_path ++ ".json") = false) :
    (process_image_file env image_path).2 =
      Val.dict [("info", Val.str "No workflow metadata found"),
        ("image_path", Val.str image_path),
        ("image_filename", Val.str (basename image_path))] := by
  have hp : parse_png_metadata env.jsonLoads img.info =
      Val.dict [("info", Val.str "No workflow metadata found")] := by
    unfold parse_png_metadata
    rw [parse_png_pairs_nil _ _ hkeys]
    rfl
  have hrf : retainFrames img.frames = f :: rest.filter (fun s => s = f) := by
    rw [hframes]
    rfl
  have hsf : sidecar_fallback env image_path
      (Val.dict [("info", Val.str "No workflow metadata found")]) =
      Val.dict [("info", Val.str "No workflow metadata found")] := by
    unfold sidecar_fallback
    rw [hsc]
    simp [pyTruthy, dictGet]
  simp only [process_image_file, hopen, hrf, hp, hsf]
  rfl

/-- Concrete environment for the C5 witness: one decodable frame, only
an unrecognized auxiliary key, no sidecar file. -/
def envPlain : Env where
  walkOutput := []
  annotated := fun s => s
  openImage := fun _ => Except.ok ⟨"PNG", [("dpi", Val.int 72)], [(8, 8)]⟩
  pathExists := fun _ => false
  loadJson := fun _ => Except.error "missing"
  jsonLoads := fun _ => Except.error "invalid"
  readFile := fun _ => Option.none
  sha256 := fun l => l

/-- C5 witness at a concrete image path. -/
theorem c5_witness :
    envPlain.pathExists (splitextRoot "out/img.png" ++ ".json") = false ∧
      (process_image_file envPlain "out/img.png").2 =
        Val.dict [("info", Val.str "No workflow metadata found"),
          ("image_path", Val.str "out/img.png"),
          ("image_filename", Val.str "img.png")] :=
  ⟨rfl,
    c5_sentinel_metadata envPlain "out/img.png" ⟨"PNG", [("dpi", Val.int 72)], [(8, 8)]⟩
      (8, 8) [] rfl rfl (by decide) rfl⟩

/-! ## Claim C6 -/

/-- C6: every frame of a decoded batch has the first decoded frame's
size — frames of a different size are silently dropped — and a
two-frame image whose second frame differs in width yields a batch of
exactly the first frame at its own size. -/
theorem c6_uniform_batch :
    (∀ (env : Env) (image_path : String) (img : PILImage) (f : Nat × Nat)
        (rest : List (Nat × Nat)) (sizes : List (Nat × Nat)),
      env.openImage image_path = Except.ok img → img.frames = f :: rest →
      (process_image_file env image_path).1 = ImageOut.frames sizes →
      ∀ s ∈ sizes, s = f) ∧
    (∀ (env : Env) (image_path : String) (img : PILImage) (w1 w2 h1 h2 : Nat),
      env.openImage image_path = Except.ok img →
      img.frames = [(w1, h1), (w2, h2)] → ¬ w1 = w2 →
      (process_image_file env image_path).1 = ImageOut.frames [(w1, h1)]) := by
  constructor
  · intro env image_path img f rest sizes hopen hframes hout s hs
    have hrf : retainFrames img.frames = f :: rest.filter (fun s => s = f) := by
      rw [hframes]
      rfl
    simp only [process_image_file, hopen, hrf] at hout
    split at hout
    · cases hout
      rcases List.mem_cons.mp hs with he | hf2
      · exact he
      · have := (List.mem_filter.mp hf2).2
        simpa using this
    · cases hout
      rcases List.mem_cons.mp hs with he | hf2
      · exact he
      · cases hf2
  · intro env image_path img w1 w2 h1 h2 hopen hframes hne
    have hrf : retainFrames img.frames = [(w1, h1)] := by
      rw [hframes]
      simp only [retainFrames, List.filter_cons, List.filter_nil]
      rw [if_neg (by simp [Prod.ext_iff]; intro he; exact absurd he.symm hne)]
    simp only [process_image_file, hopen, hrf]
    rfl

/-- Concrete environment for the C6 witness: a two-frame image whose
second frame has a different width. -/
def envTwoFrames : Env where
  walkOutput := []
  annotated := fun s => s
  openImage := fun _ => Except.ok ⟨"PNG", [], [(4, 4), (6, 4)]⟩
  pathExists := fun _ => false
  loadJson := fun _ => Except.error "missing"
  jsonLoads := fun _ => Except.error "invalid"
  readFile := fun _ => Option.none
  sha256 := fun l => l

/-- C6 witness: the mismatched second frame is dropped and the batch is
exactly one frame of the first frame's size. -/
theorem c6_witness :
    (process_image_file envTwoFrames "a.png").1 = ImageOut.frames [(4, 4)] :=
  c6_uniform_batch.2 envTwoFrames "a.png" ⟨"PNG", [], [(4, 4), (6, 4)]⟩ 4 6 4 4
    rfl rfl (by decide)

/-! ## Claim C7 -/

/-- C7: the change-detection signal is the not-a-number sentinel in
`direct_input` (most recent) mode; in `file` mode with a named file it
is the lowercase hex encoding of the SHA-256 digest of the file bytes,
and the sentinel again whenever the file cannot be opened. -/
theorem c7_change_signal :
    (∀ (env : Env) (image_file : Option String),
      IS_CHANGED env "direct_input" image_file = ChangedSig.nan) ∧
    (∀ (env : Env) (f : String) (bytes : List Nat),
      env.readFile (env.annotated f) = some bytes →
      IS_CHANGED env "file" (some f) =
        ChangedSig.digest (hexOfBytes (env.sha256 bytes))) ∧
    (∀ (env : Env) (f : String),
      env.readFile (env.annotated f) = Option.none →
      IS_CHANGED env "file" (some f) = ChangedSig.nan) := by
  refine ⟨fun env image_file => rfl, fun env f bytes h => ?_, fun env f h => ?_⟩
  · simp [IS_CHANGED, h]
  · simp [IS_CHANGED, h]

/-- Concrete environment for the C7 witness: reading any file yields the
two bytes `[0, 255]` and the digest is modelled as the identity. -/
def envBytes : Env where
  walkOutput := []
  annotated := fun s => s
  openImage := fun _ => Except.error "unused"
  pathExists := fun _ => false
  loadJson := fun _ => Except.error "missing"
  jsonLoads := fun _ => Except.error "invalid"
  readFile := fun _ => some [0, 255]
  sha256 := fun l => l

/-- C7 witness: `file` mode hashes the read bytes and hex-encodes the
digest. -/
theorem c7_witness :
    envBytes.readFile (envBytes.annotated "a.png") = some [0, 255] ∧
      IS_CHANGED envBytes "file" (some "a.png") = ChangedSig.digest "00ff" :=
  ⟨rfl, c7_change_signal.2.1 envBytes "a.png" [0, 255] rfl⟩

/-! ## Claim C3 -/

/-- Joining a list extended by one element appends separator and
element. -/
theorem pyJoin_concat (sep x : String) :
    ∀ (l : List String), ¬ l = [] →
      pyJoin sep (l ++ [x]) = pyJoin sep l ++ sep ++ x := by
  intro l
  induction l with
  | nil => intro h; exact absurd rfl h
  | cons a t ih =>
    intro _
    cases t with
    | nil => rfl
    | cons b t2 =>
      have h2 := ih (by simp)
      simp only [List.cons_append] at h2 ⊢
      calc pyJoin sep (a :: b :: (t2 ++ [x]))
          = a ++ sep ++ pyJoin sep (b :: (t2 ++ [x])) := rfl
        _ = a ++ sep ++ (pyJoin sep (b :: t2) ++ sep ++ x) := by rw [h2]
        _ = a ++ sep ++ pyJoin sep (b :: t2) ++ sep ++ x := by
              simp [String.append_assoc]
        _ = pyJoin sep (a :: b :: t2) ++ sep ++ x := rfl

/-- A joined non-empty list starts with its head. -/
theorem pyJoin_cons_prefix (sep h : String) (tl : List String) :
    ∃ t, pyJoin sep (h :: tl) = h ++ t := by
  cases tl with
  | nil => exact ⟨"", (String.append_empty h).symm⟩
  | cons b t2 =>
    refine ⟨sep ++ pyJoin sep (b :: t2), ?_⟩
    rw [← String.append_assoc]
    rfl

/-- The lines carried by a `_parse_and_format` body outcome, successful
or raised. -/
def bodyLines : Except (List String × String) (List String) → List String
  | Except.ok ls => ls
  | Except.error (ls, _) => ls

/-- Whatever happens inside the `try` body, the produced lines start
with the report header: every raise point occurs after the header was
appended. -/
theorem parse_and_format_body_headed (nd : Val) :
    ∃ tl, bodyLines (parse_and_format_body nd) =
      "--- Workflow Metadata Report ---" :: tl := by
  unfold parse_and_format_body
  cases extract_model_name nd with
  | error e => exact ⟨_, rfl⟩
  | ok model_name =>
    cases extract_loras nd with
    | error e => exact ⟨_, rfl⟩
    | ok loras =>
      cases extract_resolution nd with
      | error e => exact ⟨_, rfl⟩
      | ok res =>
        cases extract_prompts nd with
        | error e => exact ⟨_, rfl⟩
        | ok pt =>
          obtain ⟨pos, t5⟩ := pt
          cases extract_sampler_info nd with
          | error e => exact ⟨_, rfl⟩
          | ok sinfo =>
            cases extract_additional_components nd with
            | error e => exact ⟨_, rfl⟩
            | ok comps => exact ⟨_, rfl⟩

/-- C3: the reporter model is a total function — every raising operation
of the graph-formatting step is caught — and its output is always headed
by the report header; when the `try` body raises, the error line is
appended after all lines already produced, which appear verbatim (as the
joined prefix) in the returned string. -/
theorem c3_report_error_resilience (nodes_dict : Val) :
    (∃ ls, parse_and_format_body nodes_dict = Except.ok ls ∧
      parse_and_format nodes_dict = pyJoin "\n" ls ∧
      ∃ t, parse_and_format nodes_dict = "--- Workflow Metadata Report ---" ++ t) ∨
    (∃ ls e, parse_and_format_body nodes_dict = Except.error (ls, e) ∧
      parse_and_format nodes_dict =
        pyJoin "\n" ls ++ "\n" ++ ("\nError during metadata parsing: " ++ e) ∧
      ∃ t, parse_and_format nodes_dict = "--- Workflow Metadata Report ---" ++ t) := by
  obtain ⟨tl, htl⟩ := parse_and_format_body_headed nodes_dict
  cases hb : parse_and_format_body nodes_dict with
  | ok ls =>
    rw [hb] at htl
    simp only [bodyLines] at htl
    left
    refine ⟨ls, rfl, ?_, ?_⟩
    · unfold parse_and_format
      rw [hb]
    · unfold parse_and_format
      rw [hb, htl]
      exact pyJoin_cons_prefix "\n" _ tl
  | error pair =>
    obtain ⟨ls, e⟩ := pair
    rw [hb] at htl
    simp only [bodyLines] at htl
    right
    have hne : ¬ ls = [] := by
      rw [htl]
      simp
    refine ⟨ls, e, rfl, ?_, ?_⟩
    · unfold parse_and_format
      rw [hb]
      dsimp only
      rw [pyJoin_concat _ _ ls hne]
    · unfold parse_and_format
      rw [hb]
      dsimp only
      rw [pyJoin_concat _ _ ls hne, htl]
      obtain ⟨t, ht⟩ := pyJoin_cons_prefix "\n" "--- Workflow Metadata Report ---" tl
      rw [ht]
      exact ⟨t ++ ("\n" ++ ("\nError during metadata parsing: " ++ e)),
        by simp [String.append_assoc]⟩

/-! ## Claim C8 -/

/-- The six sampler fields reported for a `KSampler` node with input
mapping `ins`, given the already-resolved seed value. -/
def ksampler_fields (ins : List (String × Val)) (seed_value : Val) :
    List (String × Val) :=
  [("seed", seed_value),
   ("steps", (dictGet ins "steps").getD (Val.str "N/A")),
   ("cfg", (dictGet ins "cfg").getD (Val.str "N/A")),
   ("sampler_name", (dictGet ins "sampler_name").getD (Val.str "N/A")),
   ("scheduler", (dictGet ins "scheduler").getD (Val.str "N/A")),
   ("denoise", (dictGet ins "denoise").getD (Val.str "N/A"))]

/-- A key that resolves in a mapping forces the mapping non-empty. -/
theorem dictGet_some_ne_nil (d : List (String × Val)) (k : String) (v : Val)
    (h : dictGet d k = some v) : ¬ d = [] := by
  intro hnil
  rw [hnil] at h
  cases h

/-- When a `KSampler` node is found, `_extract_sampler_info` reports
exactly the `KSampler` branch result. -/
theorem extract_sampler_info_ksampler (nds d info : List (String × Val))
    (hfind : findNodeOfClass "KSampler" nds = some d)
    (hk : ksampler_info nds ((dictGet d "inputs").getD (Val.dict [])) = Except.ok info) :
    extract_sampler_info (Val.dict nds) = Except.ok (some info) := by
  unfold extract_sampler_info
  simp only [pyItems]
  rw [hfind]
  dsimp only
  rw [hk]

/-- The `KSampler` branch assembles the six fields around the resolved
seed. -/
theorem ksampler_info_eq (nds ins : List (String × Val)) (sv : Val)
    (hseed : ksampler_seed nds (Val.dict ins) ((dictGet ins "seed").getD Val.none) =
      Except.ok sv) :
    ksampler_info nds (Val.dict ins) = Except.ok (ksampler_fields ins sv) := by
  unfold ksampler_info
  simp only [pyGetN]
  rw [hseed]
  dsimp only
  simp only [pyGetD]
  rfl

/-- Indirect reference to a truthy `Seed Everywhere` node: its `seed`
input is reported. -/
theorem ksampler_seed_everywhere (nds ins sn sins : List (String × Val))
    (sid : String) (tl : List Val)
    (hsn : dictGet nds sid = some (Val.dict sn))
    (hct : dictGet sn "class_type" = some (Val.str "Seed Everywhere"))
    (hsi : (dictGet sn "inputs").getD (Val.dict []) = Val.dict sins) :
    ksampler_seed nds (Val.dict ins) (Val.list (Val.str sid :: tl)) =
      Except.ok ((dictGet sins "seed").getD (Val.str "N/A")) := by
  have hne : ¬ sn = [] := dictGet_some_ne_nil sn "class_type" _ hct
  unfold ksampler_seed
  dsimp only [dictGetV]
  rw [hsn]
  dsimp only
  rw [show pyTruthy (Val.dict sn) = true from by simp [pyTruthy, hne]]
  simp only [if_true, pyGetN, hct, Option.getD_some, pyGetD, hsi]

/-- Indirect reference to a node of any other class type: the seed is
reported as `N/A`. -/
theorem ksampler_seed_other (nds ins sn : List (String × Val))
    (sid : String) (tl : List Val)
    (hsn : dictGet nds sid = some (Val.dict sn))
    (hct : ¬ (dictGet sn "class_type").getD Val.none = Val.str "Seed Everywhere") :
    ksampler_seed nds (Val.dict ins) (Val.list (Val.str sid :: tl)) =
      Except.ok (Val.str "N/A") := by
  unfold ksampler_seed
  dsimp only [dictGetV]
  rw [hsn]
  dsimp only
  by_cases hne : sn = []
  · rw [show pyTruthy (Val.dict sn) = false from by simp [pyTruthy, hne]]
    rfl
  · rw [show pyTruthy (Val.dict sn) = true from by simp [pyTruthy, hne]]
    simp only [if_true, pyGetN]
    rw [if_neg hct]

/-- A non-list `seed` input is used directly. -/
theorem ksampler_seed_scalar (nds ins : List (String × Val)) (v : Val)
    (hv : dictGet ins "seed" = some v) (hnl : ∀ l, ¬ v = Val.list l) :
    ksampler_seed nds (Val.dict ins) v = Except.ok v := by
  cases v with
  | list l => exact absurd rfl (hnl l)
  | str s => simp [ksampler_seed, pyGetD, hv]
  | int n => simp [ksampler_seed, pyGetD, hv]
  | bool b => simp [ksampler_seed, pyGetD, hv]
  | none => simp [ksampler_seed, pyGetD, hv]
  | dict d => simp [ksampler_seed, pyGetD, hv]

/-- Concrete graph for the C8 example: a `KSampler` whose `seed` input
is the indirect reference `["5", 0]` to a `Seed Everywhere` node with
`seed = 42`. -/
def gSeed : Val := Val.dict
  [("3", Val.dict [("class_type", Val.str "KSampler"),
    ("inputs", Val.dict [("seed", Val.list [Val.str "5", Val.int 0]),
      ("steps", Val.int 20), ("cfg", Val.int 7),
      ("sampler_name", Val.str "euler"), ("scheduler", Val.str "normal"),
      ("denoise", Val.int 1)])]),
   ("5", Val.dict [("class_type", Val.str "Seed Everywhere"),
    ("inputs", Val.dict [("seed", Val.int 42)])])]

/-- C8: for a `KSampler` whose `seed` input is an indirect node
reference, the sampler section reports the referenced node's `seed`
input when that node's class type is `Seed Everywhere`, and `N/A` for
any other class type; a direct non-list `seed` value is reported as-is.
On the concrete example graph the reference `["5", 0]` to the
`Seed Everywhere` node with `seed = 42` produces the line `Seed: 42`. -/
theorem c8_seed_reporting :
    (∀ (nds d ins sn sins : List (String × Val)) (sid : String) (tl : List Val),
      findNodeOfClass "KSampler" nds = some d →
      (dictGet d "inputs").getD (Val.dict []) = Val.dict ins →
      dictGet ins "seed" = some (Val.list (Val.str sid :: tl)) →
      dictGet nds sid = some (Val.dict sn) →
      dictGet sn "class_type" = some (Val.str "Seed Everywhere") →
      (dictGet sn "inputs").getD (Val.dict []) = Val.dict sins →
      extract_sampler_info (Val.dict nds) = Except.ok (some
        (ksampler_fields ins ((dictGet sins "seed").getD (Val.str "N/A"))))) ∧
    (∀ (nds d ins sn : List (String × Val)) (sid : String) (tl : List Val),
      findNodeOfClass "KSampler" nds = some d →
      (dictGet d "inputs").getD (Val.dict []) = Val.dict ins →
      dictGet ins "seed" = some (Val.list (Val.str sid :: tl)) →
      dictGet nds sid = some (Val.dict sn) →
      ¬ (dictGet sn "class_type").getD Val.none = Val.str "Seed Everywhere" →
      extract_sampler_info (Val.dict nds) =
        Except.ok (some (ksampler_fields ins (Val.str "N/A")))) ∧
    (∀ (nds d ins : List (String × Val)) (v : Val),
      findNodeOfClass "KSampler" nds = some d →
      (dictGet d "inputs").getD (Val.dict []) = Val.dict ins →
      dictGet ins "seed" = some v →
      (∀ l, ¬ v = Val.list l) →
      extract_sampler_info (Val.dict nds) =
        Except.ok (some (ksampler_fields ins v))) ∧
    (extract_sampler_info gSeed = Except.ok (some
        [("seed", Val.int 42), ("steps", Val.int 20), ("cfg", Val.int 7),
         ("sampler_name", Val.str "euler"), ("scheduler", Val.str "normal"),
         ("denoise", Val.int 1)]) ∧
      fmt_kv_line ("seed", Val.int 42) = "Seed: 42") := by
  refine ⟨?_, ?_, ?_, rfl, rfl⟩
  · intro nds d ins sn sins sid tl hfind hins hlink hsn hct hsi
    refine extract_sampler_info_ksampler nds d _ hfind ?_
    rw [hins]
    refine ksampler_info_eq nds ins _ ?_
    rw [hlink, Option.getD_some]
    exact ksampler_seed_everywhere nds ins sn sins sid tl hsn hct hsi
  · intro nds d ins sn sid tl hfind hins hlink hsn hct
    refine extract_sampler_info_ksampler nds d _ hfind ?_
    rw [hins]
    refine ksampler_info_eq nds ins _ ?_
    rw [hlink, Option.getD_some]
    exact ksampler_seed_other nds ins sn sid tl hsn hct
  · intro nds d ins v hfind hins hv hnl
    refine extract_sampler_info_ksampler nds d _ hfind ?_
    rw [hins]
    refine ksampler_info_eq nds ins _ ?_
    rw [hv, Option.getD_some]
    exact ksampler_seed_scalar nds ins v hv hnl

/-- C8 witness: the first conjunct applied to the concrete example
graph. -/
theorem c8_witness :
    findNodeOfClass "KSampler"
        [("3", Val.dict [("class_type", Val.str "KSampler"),
          ("inputs", Val.dict [("seed", Val.list [Val.str "5", Val.int 0]),
            ("steps", Val.int 20), ("cfg", Val.int 7),
            ("sampler_name", Val.str "euler"), ("scheduler", Val.str "normal"),
            ("denoise", Val.int 1)])]),
         ("5", Val.dict [("class_type", Val.str "Seed Everywhere"),
          ("inputs", Val.dict [("seed", Val.int 42)])])] =
      some [("class_type", Val.str "KSampler"),
        ("inputs", Val.dict [("seed", Val.list [Val.str "5", Val.int 0]),
          ("steps", Val.int 20), ("cfg", Val.int 7),
          ("sampler_name", Val.str "euler"), ("scheduler", Val.str "normal"),
          ("denoise", Val.int 1)])] ∧
    extract_sampler_info gSeed = Except.ok (some
      (ksampler_fields
        [("seed", Val.list [Val.str "5", Val.int 0]),
         ("steps", Val.int 20), ("cfg", Val.int 7),
         ("sampler_name", Val.str "euler"), ("scheduler", Val.str "normal"),
         ("denoise", Val.int 1)]
        ((dictGet [("seed", Val.int 42)] "seed").getD (Val.str "N/A")))) :=
  ⟨rfl,
    c8_seed_reporting.1
      [("3", Val.dict [("class_type", Val.str "KSampler"),
        ("inputs", Val.dict [("seed", Val.list [Val.str "5", Val.int 0]),
          ("steps", Val.int 20), ("cfg", Val.int 7),
          ("sampler_name", Val.str "euler"), ("scheduler", Val.str "normal"),
          ("denoise", Val.int 1)])]),
       ("5", Val.dict [("class_type", Val.str "Seed Everywhere"),
        ("inputs", Val.dict [("seed", Val.int 42)])])]
      [("class_type", Val.str "KSampler"),
       ("inputs", Val.dict [("seed", Val.list [Val.str "5", Val.int 0]),
         ("steps", Val.int 20), ("cfg", Val.int 7),
         ("sampler_name", Val.str "euler"), ("scheduler", Val.str "normal"),
         ("denoise", Val.int 1)])]
      [("seed", Val.list [Val.str "5", Val.int 0]),
       ("steps", Val.int 20), ("cfg", Val.int 7),
       ("sampler_name", Val.str "euler"), ("scheduler", Val.str "normal"),
       ("denoise", Val.int 1)]
      [("class_type", Val.str "Seed Everywhere"),
       ("inputs", Val.dict [("seed", Val.int 42)])]
      [("seed", Val.int 42)]
      "5" [Val.int 0] rfl rfl rfl rfl rfl rfl⟩

/-! ## Claim C9 -/

/-- Concrete graph with two `Power Lora Loader (rgthree)` nodes: only
the first contributes, and within it only the enabled `lora_*` input. -/
def gLoras2 : Val := Val.dict
  [("1", Val.dict [("class_type", Val.str "Power Lora Loader (rgthree)"),
    ("inputs", Val.dict
      [("lora_1", Val.dict [("on", Val.bool true), ("lora", Val.str "alpha"),
        ("strength", Val.int 1)]),
       ("lora_2", Val.dict [("on", Val.bool false), ("lora", Val.str "off"),
        ("strength", Val.int 3)]),
       ("other", Val.dict [("on", Val.bool true)])])]),
   ("2", Val.dict [("class_type", Val.str "Power Lora Loader (rgthree)"),
    ("inputs", Val.dict
      [("lora_9", Val.dict [("on", Val.bool true), ("lora", Val.str "beta"),
        ("strength", Val.int 2)])])])]

/-- C9: only the first `Power Lora Loader (rgthree)` node in iteration
order determines the LoRA entries; within it exactly the inputs whose
key starts with `lora_` and whose value is a mapping with `on == true`
produce an entry (for boolean `on` fields the truthiness test coincides
with `on == true`); and the report line repeats the single strength in
both the Model and CLIP positions. -/
theorem c9_first_lora_node_only :
    (∀ (nds d ins : List (String × Val)),
      findNodeOfClass "Power Lora Loader (rgthree)" nds = some d →
      (dictGet d "inputs").getD (Val.dict []) = Val.dict ins →
      extract_loras (Val.dict nds) = Except.ok (ins.filterMap lora_hit)) ∧
    (∀ (k : String) (vd : List (String × Val)),
      (dictGet vd "on" = some (Val.bool true) ∨ dictGet vd "on" = some (Val.bool false) ∨
        dictGet vd "on" = Option.none) →
      (¬ lora_hit (k, Val.dict vd) = Option.none ↔
        (strIsPrefix "lora_" k = true ∧ dictGet vd "on" = some (Val.bool true)))) ∧
    (∀ (lora : List (String × Val)) (nm st : Val),
      dictGet lora "name" = some nm → dictGet lora "strength" = some st →
      fmt_lora_line lora =
        "  - " ++ pyStr nm ++ " (Model: " ++ pyStr st ++ ", CLIP: " ++ pyStr st ++ ")") ∧
    extract_loras gLoras2 =
      Except.ok [[("name", Val.str "alpha"), ("strength", Val.int 1)]] := by
  refine ⟨?_, ?_, ?_, rfl⟩
  · intro nds d ins hfind hins
    unfold extract_loras
    simp only [pyItems]
    rw [hfind]
    dsimp only
    rw [hins]
  · intro k vd h
    rcases h with h1 | h1 | h1 <;>
      by_cases hk : strIsPrefix "lora_" k = true <;>
        simp [lora_hit, h1, hk, pyTruthy]
  · intro lora nm st hnm hst
    simp [fmt_lora_line, hnm, hst]

/-- C9 witness: the general characterization applied to the concrete
two-node graph. -/
theorem c9_witness :
    (dictGet [("class_type", Val.str "Power Lora Loader (rgthree)"),
      ("inputs", Val.dict
        [("lora_1", Val.dict [("on", Val.bool true), ("lora", Val.str "alpha"),
          ("strength", Val.int 1)]),
         ("lora_2", Val.dict [("on", Val.bool false), ("lora", Val.str "off"),
          ("strength", Val.int 3)]),
         ("other", Val.dict [("on", Val.bool true)])])] "inputs").getD (Val.dict []) =
      Val.dict
        [("lora_1", Val.dict [("on", Val.bool true), ("lora", Val.str "alpha"),
          ("strength", Val.int 1)]),
         ("lora_2", Val.dict [("on", Val.bool false), ("lora", Val.str "off"),
          ("strength", Val.int 3)]),
         ("other", Val.dict [("on", Val.bool true)])] ∧
    extract_loras gLoras2 = Except.ok
      ([("lora_1", Val.dict [("on", Val.bool true), ("lora", Val.str "alpha"),
          ("strength", Val.int 1)]),
        ("lora_2", Val.dict [("on", Val.bool false), ("lora", Val.str "off"),
          ("strength", Val.int 3)]),
        ("other", Val.dict [("on", Val.bool true)])].filterMap lora_hit) :=
  ⟨rfl,
    c9_first_lora_node_only.1
      [("1", Val.dict [("class_type", Val.str "Power Lora Loader (rgthree)"),
        ("inputs", Val.dict
          [("lora_1", Val.dict [("on", Val.bool true), ("lora", Val.str "alpha"),
            ("strength", Val.int 1)]),
           ("lora_2", Val.dict [("on", Val.bool false), ("lora", Val.str "off"),
            ("strength", Val.int 3)]),
           ("other", Val.dict [("on", Val.bool true)])])]),
       ("2", Val.dict [("class_type", Val.str "Power Lora Loader (rgthree)"),
        ("inputs", Val.dict
          [("lora_9", Val.dict [("on", Val.bool true), ("lora", Val.str "beta"),
            ("strength", Val.int 2)])])])]
      [("class_type", Val.str "Power Lora Loader (rgthree)"),
       ("inputs", Val.dict
         [("lora_1", Val.dict [("on", Val.bool true), ("lora", Val.str "alpha"),
           ("strength", Val.int 1)]),
          ("lora_2", Val.dict [("on", Val.bool false), ("lora", Val.str "off"),
           ("strength", Val.int 3)]),
          ("other", Val.dict [("on", Val.bool true)])])]
      [("lora_1", Val.dict [("on", Val.bool true), ("lora", Val.str "alpha"),
        ("strength", Val.int 1)]),
       ("lora_2", Val.dict [("on", Val.bool false), ("lora", Val.str "off"),
        ("strength", Val.int 3)]),
       ("other", Val.dict [("on", Val.bool true)])]
      rfl rfl⟩

/-! ## Claim C10 -/

/-- C10: for metadata that is the empty mapping or not a mapping at all,
the reporter returns the fixed explanatory message — the conclusion is
the same constant for every JSON decoder `jl` and every `json.dumps`
model `jd`, so neither the graph-locating step nor the graph-formatting
step influences the result. -/
theorem c10_degenerate_metadata (jl : String → Except String Val) (jd : Val → String)
    (metadata : Val) (h : metadata = Val.dict [] ∨ Val.isDict metadata = false) :
    report_metadata jl jd metadata = fallback_message := by
  rcases h with h | h
  · rw [h]
    rfl
  · unfold report_metadata
    rw [if_pos (Or.inr (by simp [h]))]

/-- C10 witness: the empty mapping yields the fixed message. -/
theorem c10_witness :
    report_metadata (fun _ => Except.error "decode failure") (fun _ => "")
      (Val.dict []) = fallback_message :=
  c10_degenerate_metadata (fun _ => Except.error "decode failure") (fun _ => "")
    (Val.dict []) (Or.inl rfl)

end LoadImageMetadata
